import Mathlib

/-
Verification of the guild state-reconciliation and case-lifecycle engine of
discord-court-bot, embedded shallowly from src/src/handler.rs.

The handler file is the authority for the dispatch logic (lawsuit close, clear,
set_category, prison arrest/release, the member-join resync). The document
store (crate Mongo) and the LawsuitCtx operations (initialize, rule_verdict)
live in repository files that are not under src/; those are modelled from the
specification and carry a doc comment saying so.

External platform calls (member fetch, role grant, role revoke) are modelled by
injecting their success/failure as boolean parameters and recording the
attempted calls in an action trace, so ordering and frame properties of the
handler can be stated.
-/

namespace CourtBot

/-- A platform user; only the id is relevant to the engine. -/
structure User where
  id : Nat
deriving DecidableEq, Repr

/-- The Lawsuit record, as declared in the lawsuit module and constructed
literally in lawsuit_create_impl (handler.rs lines 142-152). -/
structure Lawsuit where
  id : Nat
  plaintiff : Nat
  accused : Nat
  judge : Nat
  plaintiff_lawyer : Option Nat
  accused_lawyer : Option Nat
  reason : String
  verdict : Option String
  court_room : Nat
deriving DecidableEq, Repr

/-- A court room; the close handler only consults its channel id
(handler.rs lines 232-235). -/
structure CourtRoom where
  channel_id : Nat
deriving DecidableEq, Repr

/-- The per-guild persisted aggregate (spec section 3): prison role, court
category, lawsuits, court rooms, prison entries. -/
structure State where
  prison_role : Option Nat
  court_category : Option Nat
  lawsuits : List Lawsuit
  court_rooms : List CourtRoom
  prison : List Nat
deriving DecidableEq, Repr

/-- The default-empty aggregate created on first access. -/
def emptyState : State :=
  { prison_role := none
    court_category := none
    lawsuits := []
    court_rooms := []
    prison := [] }

/-- The document store: one optional aggregate document per guild id. -/
abbrev Db := Nat → Option State

/-- Modelled from the spec: find_or_insert_state belongs to the Mongo store,
whose file is not under src/. Spec 4.1: returns the existing aggregate or
creates and persists a default-empty one. -/
def find_or_insert_state (db : Db) (g : Nat) : Db × State :=
  match db g with
  | some st => (db, st)
  | none => (Function.update db g (some emptyState), emptyState)

/-- Overwrite the aggregate of guild g. -/
def store_set (db : Db) (g : Nat) (st : State) : Db :=
  Function.update db g (some st)

/-- Modelled from the spec: set_court_category belongs to the Mongo store, not
under src/. Spec 4.1/6: a field-level update scoped by guild id with the
upsert-on-first-access semantics of find_or_insert. -/
def set_court_category (db : Db) (g c : Nat) : Db :=
  let p := find_or_insert_state db g
  store_set p.1 g { p.2 with court_category := some c }

/-- Modelled from the spec: set_prison_role belongs to the Mongo store, not
under src/. Spec 4.3: configuration mutation enabling the prison subsystem. -/
def set_prison_role (db : Db) (g r : Nat) : Db :=
  let p := find_or_insert_state db g
  store_set p.1 g { p.2 with prison_role := some r }

/-- Modelled from the spec: add_to_prison belongs to the Mongo store, not under
src/. Spec 4.3: records a PrisonEntry, idempotent at the data level. -/
def add_to_prison (db : Db) (g u : Nat) : Db :=
  let p := find_or_insert_state db g
  store_set p.1 g
    { p.2 with prison := if u ∈ p.2.prison then p.2.prison else u :: p.2.prison }

/-- Modelled from the spec: remove_from_prison belongs to the Mongo store, not
under src/. Spec 4.3: removes the persisted entry. -/
def remove_from_prison (db : Db) (g u : Nat) : Db :=
  let p := find_or_insert_state db g
  store_set p.1 g { p.2 with prison := p.2.prison.filter (fun x => x != u) }

/-- Modelled from the spec: find_prison_entry belongs to the Mongo store, not
under src/. Spec 4.1: membership read keyed by guild and member id. -/
def find_prison_entry (db : Db) (g u : Nat) : Option Unit :=
  match db g with
  | some st => if u ∈ st.prison then some () else none
  | none => none

/-- Modelled from the spec: delete_guild belongs to the Mongo store, not under
src/. Spec 4.1: hard-clears the entire aggregate. -/
def delete_guild (db : Db) (g : Nat) : Db :=
  Function.update db g none

/-- Modelled from the spec: the verdict write performed by rule_verdict is a
Mongo store update, not under src/. Spec 4.1: recordVerdict(lawsuitId, text),
a field-level update scoped by guild id and case id. -/
def record_verdict (db : Db) (g lid : Nat) (v : String) : Db :=
  let p := find_or_insert_state db g
  store_set p.1 g
    { p.2 with lawsuits :=
        p.2.lawsuits.map (fun l => if l.id = lid then { l with verdict := some v } else l) }

/-- Member permissions as consulted by the close handler; only the
MANAGE_GUILD bit matters (handler.rs lines 206-209). -/
structure Permissions where
  manage_guild : Bool
deriving DecidableEq, Repr

/-- handler.rs lines 206-209: member.permissions.map(contains MANAGE_GUILD)
with unwrap_or(false). -/
def permission_override (perms : Option Permissions) : Bool :=
  (perms.map (fun p => p.manage_guild)).getD false

inductive VerdictOutcome
  | notJudge
  | ok
deriving DecidableEq, Repr

/-- Modelled from the spec: LawsuitCtx.rule_verdict lives in the lawsuit
module, not under src/. Spec 4.2 ruleVerdict steps 2-3: the requester must be
the judge of the case or hold the override, otherwise an authorization failure
with no mutation; on success the verdict is set to the given text. The court
room argument is carried but triggers only external side effects. -/
def rule_verdict (db : Db) (g : Nat) (l : Lawsuit) (override : Bool)
    (requester : Nat) (v : String) (_room : CourtRoom) : Db × VerdictOutcome :=
  if requester = l.judge ∨ override = true then (record_verdict db g l.id v, .ok)
  else (db, .notJudge)

/-- Outcome of the close command as reported to the user: the no-active-case
negative outcome (one message for both branches at handler.rs lines 227 and
239), the authorization negative outcome, or success. -/
inductive CloseResult
  | noActiveCase
  | notAuthorized
  | closed
deriving DecidableEq, Repr

/-- handler.rs lawsuit_close_impl (lines 193-268): derive the override bit,
load the aggregate, find the active lawsuit bound to the invoking channel,
find the court room record, then delegate to rule_verdict. -/
def lawsuit_close_impl (db : Db) (g room requester : Nat)
    (perms : Option Permissions) (v : String) : Db × CloseResult :=
  let override := permission_override perms
  let p := find_or_insert_state db g
  match p.2.lawsuits.find? (fun l => l.court_room == room && l.verdict.isNone) with
  | none => (p.1, .noActiveCase)
  | some lawsuit =>
    match p.2.court_rooms.find? (fun r => r.channel_id == room) with
    | none => (p.1, .noActiveCase)
    | some croom =>
      match rule_verdict p.1 g lawsuit override requester v croom with
      | (db2, .notJudge) => (db2, .notAuthorized)
      | (db2, .ok) => (db2, .closed)

inductive ClearResult
  | cleared
deriving DecidableEq, Repr

/-- handler.rs lawsuit_clear_impl (lines 270-277): delete the whole guild
document unconditionally. -/
def lawsuit_clear_impl (db : Db) (g : Nat) : Db × ClearResult :=
  (delete_guild db g, .cleared)

/-- The channel argument of set_category; only whether it is a category
grouping, and its id, matter to the handler. -/
inductive Channel
  | category (id : Nat)
  | guildChannel (id : Nat)
  | privateChannel (id : Nat)
deriving DecidableEq, Repr

/-- The category accessor used at handler.rs line 175: some id exactly when
the channel is a category grouping. -/
def Channel.categoryId : Channel → Option Nat
  | .category id => some id
  | .guildChannel _ => none
  | .privateChannel _ => none

inductive SetCategoryResult
  | categorySet
  | notACategory
deriving DecidableEq, Repr

/-- handler.rs lawsuit_set_category_impl (lines 172-190): if the channel is a
category, persist its id as the court category; otherwise report the negative
outcome without touching the store. -/
def lawsuit_set_category_impl (db : Db) (g : Nat) (ch : Channel) :
    Db × SetCategoryResult :=
  match ch.categoryId with
  | some id => (set_court_category db g id, .categorySet)
  | none => (db, .notACategory)

/-- External platform calls attempted by an operation, in order. -/
inductive Action
  | fetchMember (user : Nat)
  | addRole (user role : Nat)
  | removeRole (user role : Nat)
deriving DecidableEq, Repr

inductive ArrestResult
  | notConfigured
  | failed
  | arrested
deriving DecidableEq, Repr

/-- handler.rs prison_arrest_impl (lines 337-369): load the aggregate; without
a configured prison role report the configuration outcome; otherwise persist
the prison entry first, then fetch the member and grant the role, either of
which may fail (failure injected via the boolean parameters). -/
def prison_arrest_impl (db : Db) (g u : Nat) (fetch_ok add_ok : Bool) :
    Db × ArrestResult × List Action :=
  let p := find_or_insert_state db g
  match p.2.prison_role with
  | none => (p.1, .notConfigured, [])
  | some role =>
    let db2 := add_to_prison p.1 g u
    if fetch_ok = false then (db2, .failed, [.fetchMember u])
    else if add_ok = false then (db2, .failed, [.fetchMember u, .addRole u role])
    else (db2, .arrested, [.fetchMember u, .addRole u role])

inductive ReleaseResult
  | notConfigured
  | failed
  | released
deriving DecidableEq, Repr

/-- handler.rs prison_release_impl (lines 372-404): mirror of arrest; the
persisted entry is removed first, then the member is fetched and the role
revoked, either of which may fail. -/
def prison_release_impl (db : Db) (g u : Nat) (fetch_ok remove_ok : Bool) :
    Db × ReleaseResult × List Action :=
  let p := find_or_insert_state db g
  match p.2.prison_role with
  | none => (p.1, .notConfigured, [])
  | some role =>
    let db2 := remove_from_prison p.1 g u
    if fetch_ok = false then (db2, .failed, [.fetchMember u])
    else if remove_ok = false then (db2, .failed, [.fetchMember u, .removeRole u role])
    else (db2, .released, [.fetchMember u, .removeRole u role])

inductive JoinResult
  | ok
  | error
deriving DecidableEq, Repr

/-- handler.rs handle_guild_member_join (lines 35-64): load the aggregate; if a
prison role is configured and a prison entry exists for the member, attempt
the role grant (whose success is injected); otherwise do nothing. -/
def handle_guild_member_join (db : Db) (g u : Nat) (add_ok : Bool) :
    Db × JoinResult × List Action :=
  let p := find_or_insert_state db g
  match p.2.prison_role with
  | none => (p.1, .ok, [])
  | some role =>
    if (find_prison_entry p.1 g u).isSome then
      if add_ok then (p.1, .ok, [.addRole u role]) else (p.1, .error, [.addRole u role])
    else (p.1, .ok, [])

/-- handler.rs lawsuit_create_impl (lines 142-152): the Lawsuit record literal,
with the freshly generated Uuid passed in as fresh_id. -/
def lawsuit_create_record (fresh_id : Nat) (plaintiff accused judge : User)
    (reason : String) (plaintiff_lawyer accused_lawyer : Option User) : Lawsuit :=
  { id := fresh_id
    plaintiff := plaintiff.id
    accused := accused.id
    judge := judge.id
    plaintiff_lawyer := plaintiff_lawyer.map (fun u => u.id)
    accused_lawyer := accused_lawyer.map (fun u => u.id)
    reason := reason
    verdict := none
    court_room := 0 }

inductive InitResult
  | noCategory
  | created
deriving DecidableEq, Repr

/-- Modelled from the spec: LawsuitCtx.initialize lives in the lawsuit module,
not under src/. Spec 4.2 create steps 1-3: requires a configured court
category, else a configuration outcome; provisions a brand-new court room
channel under the category (its id injected as new_channel), binds it to the
case, and persists the lawsuit and the room together. -/
def lawsuit_init (db : Db) (g : Nat) (l : Lawsuit) (new_channel : Nat) :
    Db × InitResult :=
  let p := find_or_insert_state db g
  match p.2.court_category with
  | none => (p.1, .noCategory)
  | some _ =>
    let bound := { l with court_room := new_channel }
    (store_set p.1 g
      { p.2 with
        lawsuits := p.2.lawsuits ++ [bound]
        court_rooms := p.2.court_rooms ++ [{ channel_id := new_channel }] }, .created)

/-! Store lemmas shared by several proofs. -/

theorem find_or_insert_of_some (db : Db) (g : Nat) (st : State) (h : db g = some st) :
    find_or_insert_state db g = (db, st) := by
  simp [find_or_insert_state, h]

theorem find_or_insert_fst_self (db : Db) (g : Nat) :
    (find_or_insert_state db g).1 g = some (find_or_insert_state db g).2 := by
  unfold find_or_insert_state
  cases h : db g with
  | some st => simp [h]
  | none => simp [Function.update_same]

theorem find_or_insert_fst_ne (db : Db) (g g' : Nat) (h : g' ≠ g) :
    (find_or_insert_state db g).1 g' = db g' := by
  unfold find_or_insert_state
  cases hg : db g with
  | some st => simp
  | none => simp [Function.update_noteq h]

/-! Concrete fixtures used by the witnesses. -/

def sampleLawsuit : Lawsuit :=
  { id := 10
    plaintiff := 1
    accused := 2
    judge := 3
    plaintiff_lawyer := none
    accused_lawyer := none
    reason := "noise"
    verdict := none
    court_room := 100 }

def sampleState : State :=
  { prison_role := some 7
    court_category := some 50
    lawsuits := [sampleLawsuit]
    court_rooms := [{ channel_id := 100 }]
    prison := [2] }

def sampleDb : Db := fun g => if g = 1 then some sampleState else none

def orphanState : State :=
  { prison_role := none
    court_category := none
    lawsuits := [sampleLawsuit]
    court_rooms := []
    prison := [] }

def orphanDb : Db := fun g => if g = 3 then some orphanState else none

def noRoleDb : Db := fun g => if g = 2 then some emptyState else none

/-- C1: when the close command finds an active lawsuit bound to the invoking
room (and the room record), it closes the case exactly when the requester is
the judge of the case or holds the MANAGE_GUILD override; otherwise it reports
the authorization outcome, which is distinct from the no-active-case outcome,
leaves the store exactly as loaded, and the verdict of the case stays unset. -/
theorem close_requires_judge_or_override (db : Db) (g room requester : Nat)
    (perms : Option Permissions) (v : String) (l : Lawsuit)
    (hl : ((find_or_insert_state db g).2).lawsuits.find?
      (fun l => l.court_room == room && l.verdict.isNone) = some l)
    (hr : (((find_or_insert_state db g).2).court_rooms.find?
      (fun r => r.channel_id == room)).isSome = true) :
    ((lawsuit_close_impl db g room requester perms v).2 = CloseResult.closed ↔
      (requester = l.judge ∨ permission_override perms = true)) ∧
    (¬(requester = l.judge ∨ permission_override perms = true) →
      (lawsuit_close_impl db g room requester perms v).2 = CloseResult.notAuthorized ∧
      CloseResult.notAuthorized ≠ CloseResult.noActiveCase ∧
      (lawsuit_close_impl db g room requester perms v).1 = (find_or_insert_state db g).1 ∧
      l.verdict = none) := by
  obtain ⟨croom, hc⟩ := Option.isSome_iff_exists.mp hr
  have hp := List.find?_some hl
  simp only [Bool.and_eq_true, beq_iff_eq, Option.isNone_iff_eq_none] at hp
  by_cases hauth : requester = l.judge ∨ permission_override perms = true
  · refine ⟨?_, fun h => absurd hauth h⟩
    simp only [lawsuit_close_impl, hl, hc, rule_verdict, if_pos hauth]
    simpa using hauth
  · refine ⟨?_, fun _ => ?_⟩
    · simp only [lawsuit_close_impl, hl, hc, rule_verdict, if_neg hauth]
      simpa using hauth
    · refine ⟨?_, by decide, ?_, hp.2⟩
      · simp only [lawsuit_close_impl, hl, hc, rule_verdict, if_neg hauth]
      · simp only [lawsuit_close_impl, hl, hc, rule_verdict, if_neg hauth]

/-- C1 witness: in the sample guild, a requester who is not the judge and has
no override gets the authorization outcome. -/
theorem close_requires_judge_or_override_witness :
    (lawsuit_close_impl sampleDb 1 100 4 none "guilty").2 = CloseResult.notAuthorized :=
  ((close_requires_judge_or_override sampleDb 1 100 4 none "guilty" sampleLawsuit
    (by decide) (by decide)).2 (by decide)).1

/-- C2: a close invocation on a room with no active (verdict-absent) lawsuit in
the persisted guild state returns the no-active-case outcome as a normal
result and leaves the whole store unchanged. -/
theorem close_no_active_case (db : Db) (g room requester : Nat)
    (perms : Option Permissions) (v : String) (st : State)
    (hst : db g = some st)
    (hnone : st.lawsuits.find? (fun l => l.court_room == room && l.verdict.isNone) = none) :
    lawsuit_close_impl db g room requester perms v = (db, CloseResult.noActiveCase) := by
  have hfi := find_or_insert_of_some db g st hst
  simp only [lawsuit_close_impl, hfi, hnone]

/-- C2 witness: closing in a channel that hosts no lawsuit of the sample guild
returns the no-active-case outcome and the unchanged store. -/
theorem close_no_active_case_witness :
    lawsuit_close_impl sampleDb 1 999 4 none "guilty" = (sampleDb, CloseResult.noActiveCase) :=
  close_no_active_case sampleDb 1 999 4 none "guilty" sampleState rfl (by decide)

/-- C9: the close command returns the very same no-active-case outcome both
when no verdict-absent lawsuit is bound to the channel and when such a lawsuit
exists but the stored court-room list has no room with the channel id; in both
situations the store, hence every verdict, is untouched. -/
theorem close_orphan_room_same_outcome (db : Db) (g room requester : Nat)
    (perms : Option Permissions) (v : String) (st : State)
    (hst : db g = some st)
    (h : st.lawsuits.find? (fun l => l.court_room == room && l.verdict.isNone) = none ∨
         st.court_rooms.find? (fun r => r.channel_id == room) = none) :
    lawsuit_close_impl db g room requester perms v = (db, CloseResult.noActiveCase) := by
  have hfi := find_or_insert_of_some db g st hst
  rcases h with h | h
  · simp only [lawsuit_close_impl, hfi, h]
  · cases hfind : st.lawsuits.find? (fun l => l.court_room == room && l.verdict.isNone) with
    | none => simp only [lawsuit_close_impl, hfi, hfind]
    | some l => simp only [lawsuit_close_impl, hfi, hfind, h]

/-- C9 witness: the orphan guild holds an active lawsuit for channel 100 but no
court-room record, and the judge still gets the no-active-case outcome. -/
theorem close_orphan_room_same_outcome_witness :
    lawsuit_close_impl orphanDb 3 100 3 none "done" = (orphanDb, CloseResult.noActiveCase) :=
  close_orphan_room_same_outcome orphanDb 3 100 3 none "done" orphanState rfl
    (Or.inr (by decide))

theorem add_to_prison_mem (db : Db) (g u : Nat) :
    ∃ st', add_to_prison db g u g = some st' ∧ u ∈ st'.prison := by
  simp only [add_to_prison, store_set, Function.update_same]
  by_cases h : u ∈ (find_or_insert_state db g).2.prison <;> simp [h]

theorem remove_from_prison_not_mem (db : Db) (g u : Nat) :
    ∃ st', remove_from_prison db g u g = some st' ∧ u ∉ st'.prison := by
  simp only [remove_from_prison, store_set, Function.update_same]
  refine ⟨_, rfl, ?_⟩
  simp [List.mem_filter]

theorem find_prison_entry_after_insert (db : Db) (g u : Nat) :
    (find_prison_entry (find_or_insert_state db g).1 g u).isSome =
      decide (u ∈ (find_or_insert_state db g).2.prison) := by
  unfold find_prison_entry
  rw [find_or_insert_fst_self]
  by_cases h : u ∈ (find_or_insert_state db g).2.prison <;> simp [h]

/-- C3: on a guild with a configured prison role, arrest persists the prison
entry before the member fetch and the role grant are attempted, so when either
external call fails the operation reports failure while the entry is already
recorded in the store. -/
theorem arrest_entry_persists_on_failure (db : Db) (g u r : Nat) (fetch_ok add_ok : Bool)
    (hrole : ((find_or_insert_state db g).2).prison_role = some r)
    (hfail : fetch_ok = false ∨ add_ok = false) :
    (prison_arrest_impl db g u fetch_ok add_ok).2.1 = ArrestResult.failed ∧
    ∃ st', (prison_arrest_impl db g u fetch_ok add_ok).1 g = some st' ∧ u ∈ st'.prison := by
  obtain ⟨st', hst', hmem⟩ := add_to_prison_mem (find_or_insert_state db g).1 g u
  simp only [prison_arrest_impl, hrole]
  cases fetch_ok <;> cases add_ok <;> simp_all

/-- C3 witness: arresting member 5 in the sample guild while the member fetch
fails still leaves the prison entry recorded. -/
theorem arrest_entry_persists_on_failure_witness :
    (prison_arrest_impl sampleDb 1 5 false true).2.1 = ArrestResult.failed ∧
    ∃ st', (prison_arrest_impl sampleDb 1 5 false true).1 1 = some st' ∧ 5 ∈ st'.prison :=
  arrest_entry_persists_on_failure sampleDb 1 5 7 false true (by decide) (Or.inl rfl)

/-- C5: on a guild with a configured prison role, release removes the persisted
prison entry before the external calls; when the fetch or the revocation fails
the operation reports failure, the entry stays removed, and no role grant is
ever attempted by the operation. -/
theorem release_entry_removed_on_failure (db : Db) (g u r : Nat) (fetch_ok remove_ok : Bool)
    (hrole : ((find_or_insert_state db g).2).prison_role = some r)
    (hfail : fetch_ok = false ∨ remove_ok = false) :
    (prison_release_impl db g u fetch_ok remove_ok).2.1 = ReleaseResult.failed ∧
    (∃ st', (prison_release_impl db g u fetch_ok remove_ok).1 g = some st' ∧
      u ∉ st'.prison) ∧
    ∀ u' r', Action.addRole u' r' ∉ (prison_release_impl db g u fetch_ok remove_ok).2.2 := by
  obtain ⟨st', hst', hmem⟩ := remove_from_prison_not_mem (find_or_insert_state db g).1 g u
  simp only [prison_release_impl, hrole]
  cases fetch_ok <;> cases remove_ok <;> simp_all

/-- C5 witness: releasing imprisoned member 2 of the sample guild while the
member fetch fails still removes the entry and grants no role. -/
theorem release_entry_removed_on_failure_witness :
    (prison_release_impl sampleDb 1 2 false true).2.1 = ReleaseResult.failed ∧
    (∃ st', (prison_release_impl sampleDb 1 2 false true).1 1 = some st' ∧
      2 ∉ st'.prison) ∧
    ∀ u' r', Action.addRole u' r' ∉ (prison_release_impl sampleDb 1 2 false true).2.2 :=
  release_entry_removed_on_failure sampleDb 1 2 7 false true (by decide) (Or.inl rfl)

/-- C8: arrest on a guild whose persisted state has no prison role configured
returns the not-configured outcome, leaves the store unchanged, adds no prison
entry, and attempts no external call at all. -/
theorem arrest_not_configured_no_effects (db : Db) (g u : Nat) (fetch_ok add_ok : Bool)
    (st : State) (hst : db g = some st) (hrole : st.prison_role = none) :
    prison_arrest_impl db g u fetch_ok add_ok = (db, ArrestResult.notConfigured, []) := by
  have hfi := find_or_insert_of_some db g st hst
  simp only [prison_arrest_impl, hfi, hrole]

/-- C8 witness: arrest in a guild with an empty configuration is a no-op with
the not-configured outcome. -/
theorem arrest_not_configured_no_effects_witness :
    prison_arrest_impl noRoleDb 2 9 true true = (noRoleDb, ArrestResult.notConfigured, []) :=
  arrest_not_configured_no_effects noRoleDb 2 9 true true emptyState rfl rfl

/-- C4: the member-join handler attempts a grant of the configured prison role
exactly when the guild state has a prison role configured and a prison entry
exists for the joining member; if either condition fails, no role grant is
attempted. -/
theorem join_grants_iff (db : Db) (g u r : Nat) (add_ok : Bool) :
    (Action.addRole u r ∈ (handle_guild_member_join db g u add_ok).2.2 ↔
      ((find_or_insert_state db g).2.prison_role = some r ∧
        u ∈ (find_or_insert_state db g).2.prison)) ∧
    (((find_or_insert_state db g).2.prison_role = none ∨
        u ∉ (find_or_insert_state db g).2.prison) →
      (handle_guild_member_join db g u add_ok).2.2 = []) := by
  cases hrole : (find_or_insert_state db g).2.prison_role with
  | none =>
    refine ⟨?_, fun _ => ?_⟩ <;> simp [handle_guild_member_join, hrole]
  | some role =>
    by_cases hmem : u ∈ (find_or_insert_state db g).2.prison
    · have he : (find_prison_entry (find_or_insert_state db g).1 g u).isSome = true := by
        rw [find_prison_entry_after_insert]; simp [hmem]
      refine ⟨?_, fun h => ?_⟩
      · cases add_ok <;> simp [handle_guild_member_join, hrole, he, hmem, eq_comm]
      · rcases h with h | h
        · simp at h
        · exact absurd hmem h
    · have he : (find_prison_entry (find_or_insert_state db g).1 g u).isSome = false := by
        rw [find_prison_entry_after_insert]; simp [hmem]
      refine ⟨?_, fun _ => ?_⟩ <;>
        cases add_ok <;> simp [handle_guild_member_join, hrole, he, hmem]

/-- C4 witness: member 4 is not imprisoned in the sample guild, so a join event
for member 4 attempts no role grant. -/
theorem join_grants_iff_witness :
    (handle_guild_member_join sampleDb 1 4 true).2.2 = [] :=
  (join_grants_iff sampleDb 1 4 7 true).2 (Or.inr (by decide))

/-- C6: clear deletes the whole persisted aggregate of the guild
unconditionally, and a subsequent find-or-insert yields the fresh
default-empty aggregate: no lawsuits, court rooms, prison entries, or
configuration survive. -/
theorem clear_then_find_or_insert_fresh (db : Db) (g : Nat) :
    (lawsuit_clear_impl db g).1 g = none ∧
    (find_or_insert_state (lawsuit_clear_impl db g).1 g).2 = emptyState ∧
    emptyState.lawsuits = [] ∧ emptyState.court_rooms = [] ∧
    emptyState.prison = [] ∧ emptyState.prison_role = none ∧
    emptyState.court_category = none := by
  have h : (lawsuit_clear_impl db g).1 g = none := by
    simp [lawsuit_clear_impl, delete_guild, Function.update_same]
  refine ⟨h, ?_, rfl, rfl, rfl, rfl, rfl⟩
  simp [find_or_insert_state, h]

/-- C7: set_category on a reference that is not a category grouping reports the
not-a-category outcome and leaves the entire store untouched; on a category it
reports success, updates exactly the court-category field of the guild
aggregate, and leaves every other guild untouched. -/
theorem set_category_validates (db : Db) (g : Nat) (ch : Channel) :
    (ch.categoryId = none →
      lawsuit_set_category_impl db g ch = (db, SetCategoryResult.notACategory)) ∧
    (∀ cid, ch.categoryId = some cid →
      (lawsuit_set_category_impl db g ch).2 = SetCategoryResult.categorySet ∧
      (lawsuit_set_category_impl db g ch).1 g =
        some { (find_or_insert_state db g).2 with court_category := some cid } ∧
      ∀ g', g' ≠ g → (lawsuit_set_category_impl db g ch).1 g' = db g') := by
  constructor
  · intro h; simp [lawsuit_set_category_impl, h]
  · intro cid h
    refine ⟨?_, ?_, ?_⟩
    · simp [lawsuit_set_category_impl, h]
    · simp [lawsuit_set_category_impl, h, set_court_category, store_set,
        Function.update_same]
    · intro g' hg'
      simp only [lawsuit_set_category_impl, h, set_court_category, store_set]
      rw [Function.update_noteq hg']
      exact find_or_insert_fst_ne db g g' hg'

/-- C7 witness: a plain guild channel is rejected as not a category and the
store is returned unchanged. -/
theorem set_category_validates_witness :
    lawsuit_set_category_impl sampleDb 1 (Channel.guildChannel 5) =
      (sampleDb, SetCategoryResult.notACategory) :=
  (set_category_validates sampleDb 1 (Channel.guildChannel 5)).1 rfl

/-- C10: the create operation constructs the Lawsuit record with an unset
verdict, the freshly generated id, the lawyers taken from the optional
arguments, and the placeholder court-room id 0; the real court room is bound
only by the subsequent initialization step, which persists the case with the
newly provisioned channel id. -/
theorem create_record_shape (fresh_id : Nat) (plaintiff accused judge : User)
    (reason : String) (pl al : Option User) (db : Db) (g ch cat : Nat)
    (hcat : ((find_or_insert_state db g).2).court_category = some cat) :
    (lawsuit_create_record fresh_id plaintiff accused judge reason pl al).verdict = none ∧
    (lawsuit_create_record fresh_id plaintiff accused judge reason pl al).id = fresh_id ∧
    (lawsuit_create_record fresh_id plaintiff accused judge reason pl al).plaintiff_lawyer =
      pl.map (fun u => u.id) ∧
    (lawsuit_create_record fresh_id plaintiff accused judge reason pl al).accused_lawyer =
      al.map (fun u => u.id) ∧
    (lawsuit_create_record fresh_id plaintiff accused judge reason pl al).court_room = 0 ∧
    ∃ st',
      (lawsuit_init db g
        (lawsuit_create_record fresh_id plaintiff accused judge reason pl al) ch).1 g =
        some st' ∧
      { lawsuit_create_record fresh_id plaintiff accused judge reason pl al with
          court_room := ch } ∈ st'.lawsuits := by
  refine ⟨rfl, rfl, rfl, rfl, rfl, ?_⟩
  simp only [lawsuit_init, hcat, store_set, Function.update_same]
  exact ⟨_, rfl, by simp⟩

/-- C10 witness: a concrete created record has an unset verdict, the given
fresh id, the given lawyers, the placeholder room 0, and initialization in the
sample guild persists it bound to the provisioned channel 200. -/
theorem create_record_shape_witness :
    (lawsuit_create_record 42 ⟨11⟩ ⟨12⟩ ⟨13⟩ "why" (some ⟨14⟩) none).verdict = none ∧
    (lawsuit_create_record 42 ⟨11⟩ ⟨12⟩ ⟨13⟩ "why" (some ⟨14⟩) none).id = 42 ∧
    (lawsuit_create_record 42 ⟨11⟩ ⟨12⟩ ⟨13⟩ "why" (some ⟨14⟩) none).plaintiff_lawyer =
      (some (⟨14⟩ : User)).map (fun u => u.id) ∧
    (lawsuit_create_record 42 ⟨11⟩ ⟨12⟩ ⟨13⟩ "why" (some ⟨14⟩) none).accused_lawyer =
      (none : Option User).map (fun u => u.id) ∧
    (lawsuit_create_record 42 ⟨11⟩ ⟨12⟩ ⟨13⟩ "why" (some ⟨14⟩) none).court_room = 0 ∧
    ∃ st',
      (lawsuit_init sampleDb 1
        (lawsuit_create_record 42 ⟨11⟩ ⟨12⟩ ⟨13⟩ "why" (some ⟨14⟩) none) 200).1 1 =
        some st' ∧
      { lawsuit_create_record 42 ⟨11⟩ ⟨12⟩ ⟨13⟩ "why" (some ⟨14⟩) none with
          court_room := 200 } ∈ st'.lawsuits :=
  create_record_shape 42 ⟨11⟩ ⟨12⟩ ⟨13⟩ "why" (some ⟨14⟩) none sampleDb 1 200 50 (by decide)

end CourtBot
